import Mathlib

/-!
Shallow embedding of the Kopia backup/restore service of incus-os
(`incus-osd/internal/services/service_kopia.go`, API structs from the
`api` package).  External commands (zfs, kopia, rsync, the service and
application registry, the clock) are modelled by an environment `Env`
supplying the outcome of each invocation; every executor returns the
mutated service record together with the list of external calls it made
and the successive values written to the `Progress` field.

Go conventions used by the model:
 - `error` results are `Option String` (`none` = nil, `some e` = error `e`);
 - `time.Time` values are `Nat` (the Go zero time is `0`);
 - `Progress` is a `float64` in Go but is only ever assigned the integer
   literals 0, 20, 25, 30, 40, 50, 70, 80, 90, 100, so it is a `Nat` here;
 - `filepath.Join(a, b)` on the already-clean paths appearing in this code
   is plain `a ++ "/" ++ b`;
 - `n.state.Save()` (deferred in `Update`) persists the in-memory state, so
   the `kopia` field of an executor's result is the persisted record.
-/

namespace KopiaSvc

/-- api.ServiceKopiaBackendS3. -/
structure ServiceKopiaBackendS3 where
  endpoint : String
  bucket : String
  accessKey : String
  secretKey : String
  region : String
deriving DecidableEq, Repr

/-- api.ServiceKopiaBackendConfig (`Type` field rendered as `typ`). -/
structure ServiceKopiaBackendConfig where
  typ : String
  s3 : Option ServiceKopiaBackendS3
deriving DecidableEq, Repr

/-- api.ServiceKopiaRetentionPolicy; Go `int` fields are `Int`. -/
structure ServiceKopiaRetentionPolicy where
  keepLatest : Int
  keepHourly : Int
  keepDaily : Int
  keepWeekly : Int
  keepMonthly : Int
  keepAnnual : Int
deriving DecidableEq, Repr

/-- api.ServiceKopiaConfig. -/
structure ServiceKopiaConfig where
  enabled : Bool
  repositoryPassword : String
  backend : ServiceKopiaBackendConfig
  retention : ServiceKopiaRetentionPolicy
  backupFrequency : String
  restoreSnapshotID : String
deriving DecidableEq, Repr

/-- api.ServiceKopiaSnapshotInfo. -/
structure ServiceKopiaSnapshotInfo where
  id : String
  time : Nat
  size : Int
  source : String
  description : String
deriving DecidableEq, Repr

/-- api.ServiceKopiaState. -/
structure ServiceKopiaState where
  repositoryConnected : Bool
  lastBackup : Nat
  lastBackupWindow : String
  lastStatus : String
  inProgress : Bool
  progress : Nat
  availableSnapshots : List ServiceKopiaSnapshotInfo
deriving DecidableEq, Repr

/-- api.ServiceKopia: observable state plus configuration. -/
structure ServiceKopia where
  state : ServiceKopiaState
  config : ServiceKopiaConfig
deriving DecidableEq, Repr

/-- The Go zero value of api.ServiceKopia: the record a freshly started
daemon holds before any update is applied. -/
def initialServiceKopia : ServiceKopia :=
  { state := { repositoryConnected := false, lastBackup := 0, lastBackupWindow := ""
               lastStatus := "", inProgress := false, progress := 0, availableSnapshots := [] }
    config := { enabled := false, repositoryPassword := ""
                backend := { typ := "", s3 := none }
                retention := { keepLatest := 0, keepHourly := 0, keepDaily := 0
                               keepWeekly := 0, keepMonthly := 0, keepAnnual := 0 }
                backupFrequency := "", restoreSnapshotID := "" } }

/-- One external invocation made by the service (zfs / kopia / rsync
commands, filesystem operations, and registry stop/start requests). -/
inductive ExtCall where
  | zfsSnapshot (name : String)
  | zfsDestroy (name : String)
  | zfsGetMountpoint (pool : String)
  | statPath (path : String)
  | kopiaSnapshotCreate (path : String) (descr : String)
  | kopiaExpire (args : List String)
  | kopiaRestore (id : String) (target : String)
  | rsync (src : String) (dst : String)
  | mkdirAll (path : String)
  | removeAll (path : String)
  | stopApp (name : String)
  | startApp (name : String)
  | stopService (name : String)
  | startService (name : String)
  | kopiaRepoConnect
  | kopiaRepoCreate
  | zfsCreateDataset (pool : String) (name : String)
deriving DecidableEq, Repr

/-- Environment: outcome of every external interaction.  A function result
of `none` means the invocation succeeded, `some e` that it failed with
error text `e`.  `nowFmt`, `nowRFC` and `nowTime` give the value of the
k-th `time.Now()` call of a run (a clock counter is threaded through). -/
structure Env where
  poolExists : Bool
  inWindow : Bool
  nowFmt : Nat → String
  nowRFC : Nat → String
  nowTime : Nat → Nat
  zfsSnapshotRes : String → Option String
  zfsDestroyRes : String → Option String
  zfsMountpointRes : String → Except String String
  statRes : String → Option String
  kopiaCreateRes : String → String → Option String
  kopiaExpireRes : List String → Option String
  kopiaRestoreRes : String → String → Option String
  rsyncRes : String → String → Option String
  mkdirRes : String → Option String
  apps : List String
  appLoadOk : String → Bool
  services : List String
  svcLoadOk : String → Bool
  svcShouldStart : String → Bool
  connectRes : Option String
  createRepoRes : Option String
  datasetExists : Bool
  createDatasetRes : Option String
  currentWindowID : String
  parseFrequency : String → Option Nat
  tickNow : Nat

/-- Result of one executor run: the Go return value, the resulting
(persisted) service record, the external calls made, the successive values
assigned to `State.Progress`, and the clock counter after the run. -/
structure Out where
  res : Option String
  kopia : ServiceKopia
  calls : List ExtCall
  plog : List Nat
  clock : Nat
deriving Repr

/-- validateBackendConfig. -/
def validateBackendConfig (backend : ServiceKopiaBackendConfig) : Option String :=
  if backend.typ = "s3" then
    match backend.s3 with
    | none => some "S3 backend configuration missing"
    | some s3 =>
      if s3.endpoint = "" ∨ s3.bucket = "" ∨ s3.accessKey = "" ∨ s3.secretKey = "" then
        some "S3 configuration incomplete"
      else
        none
  else
    some ("unsupported backend type: " ++ backend.typ)

/-- findLocalPool. -/
def findLocalPool (env : Env) : Except String String :=
  if env.poolExists then .ok "local" else .error "local ZFS pool not found"

/-- createZFSSnapshot: appends "@kopia-<timestamp>" to its pool argument and
runs `zfs snapshot`; returns the snapshot name on success. -/
def createZFSSnapshot (env : Env) (clock : Nat) (poolName : String) :
    Except String String × List ExtCall × Nat :=
  let snapshotName := poolName ++ "@kopia-" ++ env.nowFmt clock
  match env.zfsSnapshotRes snapshotName with
  | some e => (.error ("failed to create ZFS snapshot: " ++ e), [.zfsSnapshot snapshotName], clock + 1)
  | none => (.ok snapshotName, [.zfsSnapshot snapshotName], clock + 1)

/-- destroyZFSSnapshot. -/
def destroyZFSSnapshot (env : Env) (snapshotName : String) :
    Option String × List ExtCall :=
  match env.zfsDestroyRes snapshotName with
  | some e => (some ("failed to destroy ZFS snapshot: " ++ e), [.zfsDestroy snapshotName])
  | none => (none, [.zfsDestroy snapshotName])

/-- A whitespace character in the sense of Go's strings.TrimSpace
(restricted to the ASCII whitespace that can occur in `zfs get` output). -/
def isSpaceChar (c : Char) : Bool :=
  c = ' ' || c = '\t' || c = '\n' || c = '\r'

/-- strings.TrimSpace, written by structural recursion on the character
list so that it evaluates definitionally. -/
def trimSpace (s : String) : String :=
  String.mk (((s.toList.dropWhile isSpaceChar).reverse.dropWhile isSpaceChar).reverse)

/-- strings.Split on a single-character separator, written by structural
recursion on the character list so that it evaluates definitionally. -/
def splitAtChar (c : Char) : List Char → List (List Char)
  | [] => [[]]
  | x :: xs =>
    match splitAtChar c xs with
    | [] => [[x]]
    | y :: ys => if x = c then [] :: y :: ys else (x :: y) :: ys

/-- strings.Split(s, "@"). -/
def splitAmp (s : String) : List String :=
  (splitAtChar '@' s.toList).map String.mk

/-- getPoolMountpoint: `zfs get mountpoint`, mapping "none"/"legacy" to the
default location under "/". -/
def getPoolMountpoint (env : Env) (poolName : String) :
    Except String String × List ExtCall :=
  match env.zfsMountpointRes poolName with
  | .error e => (.error ("failed to get mountpoint: " ++ e), [.zfsGetMountpoint poolName])
  | .ok output =>
    let mountpoint := trimSpace output
    if mountpoint = "none" ∨ mountpoint = "legacy" then
      (.ok ("/" ++ poolName), [.zfsGetMountpoint poolName])
    else
      (.ok mountpoint, [.zfsGetMountpoint poolName])

/-- getSnapshotPath: resolves a snapshot to its `.zfs/snapshot` path and
stats it.  The Go code indexes `strings.Split(name, "@")` at 0 and 1;
the model uses defaulted access (the names built by this service always
contain an "@"). -/
def getSnapshotPath (env : Env) (snapshotName : String) :
    Except String String × List ExtCall :=
  let parts := splitAmp snapshotName
  let poolName := parts.headD ""
  match getPoolMountpoint env poolName with
  | (.error e, mcalls) => (.error e, mcalls)
  | (.ok mountpoint, mcalls) =>
    let snapshotPath := mountpoint ++ "/.zfs/snapshot/" ++ parts.getD 1 ""
    match env.statRes snapshotPath with
    | some e => (.error ("snapshot path does not exist: " ++ e), mcalls ++ [.statPath snapshotPath])
    | none => (.ok snapshotPath, mcalls ++ [.statPath snapshotPath])

/-- isInMaintenanceWindow, consumed as the environment predicate (the
SystemUpdate maintenance windows live outside this service; an empty
window list makes the predicate hold). -/
def isInMaintenanceWindow (env : Env) : Bool :=
  env.inWindow

/-- The `kopia snapshot expire` argument list built by applyRetention from
the six keep counts. -/
def retentionArgs (config : ServiceKopiaConfig) : List String :=
  let args := ["snapshot", "expire"]
  let args := if config.retention.keepLatest > 0 then
    args ++ ["--keep-latest", toString config.retention.keepLatest] else args
  let args := if config.retention.keepHourly > 0 then
    args ++ ["--keep-hourly", toString config.retention.keepHourly] else args
  let args := if config.retention.keepDaily > 0 then
    args ++ ["--keep-daily", toString config.retention.keepDaily] else args
  let args := if config.retention.keepWeekly > 0 then
    args ++ ["--keep-weekly", toString config.retention.keepWeekly] else args
  let args := if config.retention.keepMonthly > 0 then
    args ++ ["--keep-monthly", toString config.retention.keepMonthly] else args
  if config.retention.keepAnnual > 0 then
    args ++ ["--keep-annual", toString config.retention.keepAnnual] else args

/-- applyRetention: builds `kopia snapshot expire` flags from the six keep
counts and skips the invocation entirely when no flag was added. -/
def applyRetention (env : Env) (config : ServiceKopiaConfig) :
    Option String × List ExtCall :=
  let args := retentionArgs config
  if args.length = 2 then
    (none, [])
  else
    match env.kopiaExpireRes args with
    | some e => (some ("failed to apply retention policy: " ++ e), [.kopiaExpire args])
    | none => (none, [.kopiaExpire args])

/-- performBackup: one full backup cycle of the local pool.  The Go
function registers, right after the snapshot is created, a deferred
cleanup that destroys the snapshot whenever the function-scoped `err`
variable is non-nil at exit; the model appends that destroy call on each
such exit path (including the success exit when the final explicit
destroy itself failed, because `err` then still holds that error). -/
def performBackup (env : Env) (clock : Nat) (k : ServiceKopia) : Out :=
  if k.state.repositoryConnected = false then
    { res := some "repository not connected", kopia := k, calls := [], plog := [], clock := clock }
  else if isInMaintenanceWindow env = false then
    { res := some "outside maintenance window"
      kopia := { k with state := { k.state with lastStatus := "Outside maintenance window" } }
      calls := [], plog := [], clock := clock }
  else
    match findLocalPool env with
    | .error e =>
      { res := some e
        kopia := { k with state := { k.state with lastStatus := "Failed to find local pool: " ++ e } }
        calls := [], plog := [], clock := clock }
    | .ok poolName =>
      let st := { k.state with inProgress := true, progress := 0, lastStatus := "Creating ZFS snapshot" }
      match createZFSSnapshot env clock poolName with
      | (.error e, c1, clock1) =>
        { res := some e
          kopia := { k with state := { st with inProgress := false, lastStatus := "Failed to create snapshot: " ++ e } }
          calls := c1, plog := [0], clock := clock1 }
      | (.ok snapshotName, c1, clock1) =>
        match getSnapshotPath env snapshotName with
        | (.error e, c2) =>
          { res := some e
            kopia := { k with state := { st with inProgress := false, lastStatus := "Failed to get snapshot path: " ++ e } }
            calls := c1 ++ c2 ++ [.zfsDestroy snapshotName], plog := [0], clock := clock1 }
        | (.ok snapshotPath, c2) =>
          let descr := "Backup of " ++ poolName ++ " pool at " ++ env.nowRFC clock1
          let clock2 := clock1 + 1
          match env.kopiaCreateRes snapshotPath descr with
          | some e =>
            { res := some e
              kopia := { k with state := { st with inProgress := false, progress := 25, lastStatus := "Failed to create Kopia snapshot: " ++ e } }
              calls := c1 ++ c2 ++ [.kopiaSnapshotCreate snapshotPath descr, .zfsDestroy snapshotName]
              plog := [0, 25], clock := clock2 }
          | none =>
            let retention := applyRetention env k.config
            let destroy := destroyZFSSnapshot env snapshotName
            let lateCalls := retention.2 ++ destroy.2 ++
              (match destroy.1 with
               | some _ => [ExtCall.zfsDestroy snapshotName]
               | none => [])
            { res := none
              kopia := { k with state := { st with inProgress := false, progress := 100
                                                   lastBackup := env.nowTime clock2
                                                   lastStatus := "Backup completed successfully" } }
              calls := c1 ++ c2 ++ [.kopiaSnapshotCreate snapshotPath descr] ++ lateCalls
              plog := [0, 25, 75, 90, 100], clock := clock2 + 1 }

/-- The stop-phase of PerformRestore: `stopApp` for each application whose
load succeeded (map iteration order supplied by the environment), then
`stopService` for each supported service in reverse startup order,
skipping "kopia" and units that fail to load or should not start.  Stop
errors are logged and swallowed, so the calls themselves are the only
observable effect. -/
def restoreStopCalls (env : Env) : List ExtCall :=
  (env.apps.filter env.appLoadOk).map ExtCall.stopApp ++
    (env.services.reverse.filter
      (fun s => s ≠ "kopia" && env.svcLoadOk s && env.svcShouldStart s)).map ExtCall.stopService

/-- The start-phase of PerformRestore: services in forward startup order
(skipping "kopia", failed loads and units that should not start), then
applications.  Start errors are logged and swallowed. -/
def restoreStartCalls (env : Env) : List ExtCall :=
  (env.services.filter
      (fun s => s ≠ "kopia" && env.svcLoadOk s && env.svcShouldStart s)).map ExtCall.startService ++
    (env.apps.filter env.appLoadOk).map ExtCall.startApp

/-- PerformRestore: the full destructive restore cycle.  Note the Go code
passes the complete safety-snapshot name (pool ++ "@before-restore-" ++ ts)
as the *pool* argument of createZFSSnapshot, which appends a further
"@kopia-<ts>" before invoking `zfs snapshot`. -/
def PerformRestore (env : Env) (clock : Nat) (k : ServiceKopia) (snapshotID : String) : Out :=
  if k.state.repositoryConnected = false then
    { res := some "repository not connected", kopia := k, calls := [], plog := [], clock := clock }
  else
    match findLocalPool env with
    | .error e =>
      { res := some e, kopia := k, calls := [], plog := [], clock := clock }
    | .ok poolName =>
      let st := { k.state with inProgress := true, progress := 0, lastStatus := "Stopping services" }
      let stopCalls := restoreStopCalls env
      let safetySnapshotName := poolName ++ "@before-restore-" ++ env.nowFmt clock
      let clock1 := clock + 1
      match createZFSSnapshot env clock1 safetySnapshotName with
      | (.error e, cSnap, clock2) =>
        { res := some ("failed to create safety snapshot: " ++ e)
          kopia := { k with state := { st with inProgress := false, progress := 20
                                               lastStatus := "Failed to create safety snapshot: " ++ e } }
          calls := stopCalls ++ cSnap, plog := [0, 20], clock := clock2 }
      | (.ok _, cSnap, clock2) =>
        match getPoolMountpoint env poolName with
        | (.error e, mcalls) =>
          { res := some e
            kopia := { k with state := { st with inProgress := false, progress := 30
                                                 lastStatus := "Failed to get pool mountpoint: " ++ e } }
            calls := stopCalls ++ cSnap ++ mcalls, plog := [0, 20, 30], clock := clock2 }
        | (.ok mountpoint, mcalls) =>
          let tempRestorePath := mountpoint ++ "/.kopia-restore-temp"
          match env.mkdirRes tempRestorePath with
          | some e =>
            { res := some e
              kopia := { k with state := { st with inProgress := false, progress := 40
                                                   lastStatus := "Failed to create temp restore path: " ++ e } }
              calls := stopCalls ++ cSnap ++ mcalls ++ [.mkdirAll tempRestorePath]
              plog := [0, 20, 30, 40], clock := clock2 }
          | none =>
            match env.kopiaRestoreRes snapshotID tempRestorePath with
            | some e =>
              let e2 := "failed to restore snapshot: " ++ e
              { res := some e2
                kopia := { k with state := { st with inProgress := false, progress := 50
                                                     lastStatus := "Failed to restore snapshot: " ++ e2 } }
                calls := stopCalls ++ cSnap ++ mcalls ++
                  [.mkdirAll tempRestorePath, .kopiaRestore snapshotID tempRestorePath, .removeAll tempRestorePath]
                plog := [0, 20, 30, 40, 50], clock := clock2 }
            | none =>
              match env.rsyncRes (tempRestorePath ++ "/") (mountpoint ++ "/") with
              | some e =>
                let e2 := "failed to apply restored data: " ++ e
                { res := some e2
                  kopia := { k with state := { st with inProgress := false, progress := 70
                                                       lastStatus := "Failed to apply restored data: " ++ e2 } }
                  calls := stopCalls ++ cSnap ++ mcalls ++
                    [.mkdirAll tempRestorePath, .kopiaRestore snapshotID tempRestorePath,
                     .rsync (tempRestorePath ++ "/") (mountpoint ++ "/"), .removeAll tempRestorePath]
                  plog := [0, 20, 30, 40, 50, 70], clock := clock2 }
              | none =>
                { res := none
                  kopia := { k with state := { st with inProgress := false, progress := 100
                                                       lastStatus := "Restore completed successfully" } }
                  calls := stopCalls ++ cSnap ++ mcalls ++
                    [.mkdirAll tempRestorePath, .kopiaRestore snapshotID tempRestorePath,
                     .rsync (tempRestorePath ++ "/") (mountpoint ++ "/")] ++
                    restoreStartCalls env ++ [.removeAll tempRestorePath]
                  plog := [0, 20, 30, 40, 50, 70, 80, 100], clock := clock2 }

/-- Kopia.Stop: marks the cycle as not in progress (a no-op when the
service is disabled).  Always returns nil. -/
def Stop (k : ServiceKopia) : Option String × ServiceKopia :=
  if k.config.enabled = false then
    (none, k)
  else
    (none, { k with state := { k.state with inProgress := false, progress := 0 } })

/-- ensureKopiaCacheDataset: creates the local/kopia-cache dataset unless
it already exists. -/
def ensureKopiaCacheDataset (env : Env) : Option String × List ExtCall :=
  if env.datasetExists then
    (none, [])
  else
    match env.createDatasetRes with
    | some e => (some ("failed to create Kopia cache dataset: " ++ e), [.zfsCreateDataset "local" "kopia-cache"])
    | none => (none, [.zfsCreateDataset "local" "kopia-cache"])

/-- connectS3Repository (requires a repository password, then runs
`kopia repository connect s3`). -/
def connectS3Repository (env : Env) (config : ServiceKopiaConfig) :
    Option String × List ExtCall :=
  if config.repositoryPassword = "" then
    (some "repository_password is required for repository connection", [])
  else
    match env.connectRes with
    | some e => (some ("failed to connect repository: " ++ e), [.kopiaRepoConnect])
    | none => (none, [.kopiaRepoConnect])

/-- initS3Repository (requires a repository password, then runs
`kopia repository create s3`). -/
def initS3Repository (env : Env) (config : ServiceKopiaConfig) :
    Option String × List ExtCall :=
  if config.repositoryPassword = "" then
    (some "repository_password is required for repository initialization", [])
  else
    match env.createRepoRes with
    | some e => (some ("failed to create repository: " ++ e), [.kopiaRepoCreate])
    | none => (none, [.kopiaRepoCreate])

/-- connectRepository, dispatching on the backend type. -/
def connectRepository (env : Env) (config : ServiceKopiaConfig) :
    Option String × List ExtCall :=
  if config.backend.typ = "s3" then
    connectS3Repository env config
  else
    (some ("unsupported backend type for connect: " ++ config.backend.typ), [])

/-- initRepository, dispatching on the backend type. -/
def initRepository (env : Env) (config : ServiceKopiaConfig) :
    Option String × List ExtCall :=
  if config.backend.typ = "s3" then
    initS3Repository env config
  else
    (some ("unsupported backend type for init: " ++ config.backend.typ), [])

/-- connectOrInitRepository: connect first, create on connect failure. -/
def connectOrInitRepository (env : Env) (config : ServiceKopiaConfig) :
    Option String × List ExtCall :=
  match connectRepository env config with
  | (none, calls) => (none, calls)
  | (some _, calls) =>
    let r := initRepository env config
    (r.1, calls ++ r.2)

/-- configure: validates the backend, ensures the cache dataset, then
connects to (or initializes) the repository, recording connection state
and status. -/
def configure (env : Env) (k : ServiceKopia) :
    Option String × ServiceKopia × List ExtCall :=
  match validateBackendConfig k.config.backend with
  | some e =>
    (some e,
     { k with state := { k.state with repositoryConnected := false
                                      lastStatus := "Backend configuration invalid: " ++ e } },
     [])
  | none =>
    match ensureKopiaCacheDataset env with
    | (some e, calls) => (some ("failed to ensure Kopia cache dataset: " ++ e), k, calls)
    | (none, calls) =>
      match connectOrInitRepository env k.config with
      | (some e, calls2) =>
        (some e,
         { k with state := { k.state with repositoryConnected := false
                                          lastStatus := "Failed to connect or initialize repository: " ++ e } },
         calls ++ calls2)
      | (none, calls2) =>
        (none,
         { k with state := { k.state with repositoryConnected := true
                                          lastStatus := "Repository connected" } },
         calls ++ calls2)

/-- Kopia.Start: configures the service when enabled. -/
def Start (env : Env) (k : ServiceKopia) :
    Option String × ServiceKopia × List ExtCall :=
  if k.config.enabled = false then
    (none, k, [])
  else
    configure env k

/-- The disable branch at the top of Update: Stop is called when the
service transitions from enabled to disabled.  Stop always returns nil
(theorem Stop_returns_nil below), so Update never takes its early error
return and only the state effect matters. -/
def updateStop (k : ServiceKopia) (newConfig : ServiceKopiaConfig) : ServiceKopia :=
  if k.config.enabled = true ∧ newConfig.enabled = false then (Stop k).2 else k

/-- The tail of Update after the restore-trigger check: assign the incoming
configuration, start the service when it transitions to enabled, and
configure it when it ends up enabled (so an enable transition runs
configure twice, once via Start and once via the enabled check). -/
def updateApplyConfig (env : Env) (clock : Nat) (k : ServiceKopia)
    (oldConfig newConfig : ServiceKopiaConfig)
    (calls : List ExtCall) (plog : List Nat) : Out :=
  let k2 := { k with config := newConfig }
  if oldConfig.enabled = false ∧ newConfig.enabled = true then
    match Start env k2 with
    | (some e, k3, c) =>
      { res := some e, kopia := k3, calls := calls ++ c, plog := plog, clock := clock }
    | (none, k3, c) =>
      if k3.config.enabled = true then
        match configure env k3 with
        | (some e, k4, c2) =>
          { res := some e, kopia := k4, calls := calls ++ c ++ c2, plog := plog, clock := clock }
        | (none, k4, c2) =>
          { res := none, kopia := k4, calls := calls ++ c ++ c2, plog := plog, clock := clock }
      else
        { res := none, kopia := k3, calls := calls ++ c, plog := plog, clock := clock }
  else
    if k2.config.enabled = true then
      match configure env k2 with
      | (some e, k3, c2) =>
        { res := some e, kopia := k3, calls := calls ++ c2, plog := plog, clock := clock }
      | (none, k3, c2) =>
        { res := none, kopia := k3, calls := calls ++ c2, plog := plog, clock := clock }
    else
      { res := none, kopia := k2, calls := calls, plog := plog, clock := clock }

/-- Kopia.Update: stop on a disable transition, run PerformRestore when the
incoming restore_snapshot_id is non-empty and differs from the persisted
one (returning its error without applying the incoming configuration on
failure, clearing the field on success), then apply the configuration.
The deferred state Save persists the returned record on every exit. -/
def Update (env : Env) (clock : Nat) (k : ServiceKopia)
    (newConfig : ServiceKopiaConfig) : Out :=
  let k1 := updateStop k newConfig
  if newConfig.restoreSnapshotID ≠ "" ∧ newConfig.restoreSnapshotID ≠ k.config.restoreSnapshotID then
    let r := PerformRestore env clock k1 newConfig.restoreSnapshotID
    match r.res with
    | some e =>
      { res := some e, kopia := r.kopia, calls := r.calls, plog := r.plog, clock := r.clock }
    | none =>
      updateApplyConfig env r.clock r.kopia k.config
        { newConfig with restoreSnapshotID := "" } r.calls r.plog
  else
    updateApplyConfig env clock k1 k.config newConfig [] []

/-- Modelled from the spec: the backup scheduler's decision function
(spec section 4.3), which is not part of src/.  Under the default (empty
backup_frequency) policy a backup runs when the maintenance-window
predicate holds and the currently active window's identifier differs from
last_backup_window (or no backup has ever run, the Go zero time).  Under a
duration policy it runs when the parsed duration has elapsed since
last_backup and the predicate holds; an unparsable duration skips
scheduling. -/
def shouldRunBackup (env : Env) (k : ServiceKopia) : Bool :=
  if k.config.backupFrequency = "" then
    env.inWindow &&
      (k.state.lastBackupWindow ≠ env.currentWindowID || k.state.lastBackup = 0)
  else
    match env.parseFrequency k.config.backupFrequency with
    | none => false
    | some d => env.inWindow && (k.state.lastBackup + d ≤ env.tickNow)

/-- Modelled from the spec: one periodic scheduler tick (spec sections 4.3
and 5), which is not part of src/.  The tick is a no-op while a cycle is
in progress; on a positive decision it runs performBackup and, on success
under the default policy, records the current window's identifier in
last_backup_window. -/
def schedulerTick (env : Env) (clock : Nat) (k : ServiceKopia) : Out :=
  if k.state.inProgress = true then
    { res := none, kopia := k, calls := [], plog := [], clock := clock }
  else if shouldRunBackup env k then
    let r := performBackup env clock k
    match r.res with
    | some _ => r
    | none =>
      if k.config.backupFrequency = "" then
        { r with kopia := { r.kopia with state := { r.kopia.state with lastBackupWindow := env.currentWindowID } } }
      else
        r
  else
    { res := none, kopia := k, calls := [], plog := [], clock := clock }

/-- A fixture environment in which every external invocation succeeds. -/
def envAllOk : Env :=
  { poolExists := true, inWindow := true
    nowFmt := fun n => if n = 0 then "20250101-000000" else "20250101-000001"
    nowRFC := fun _ => "2025-01-01T00:00:00Z"
    nowTime := fun n => 1700000000 + n
    zfsSnapshotRes := fun _ => none
    zfsDestroyRes := fun _ => none
    zfsMountpointRes := fun _ => .ok "/local"
    statRes := fun _ => none
    kopiaCreateRes := fun _ _ => none
    kopiaExpireRes := fun _ => none
    kopiaRestoreRes := fun _ _ => none
    rsyncRes := fun _ _ => none
    mkdirRes := fun _ => none
    apps := ["app1"], appLoadOk := fun _ => true
    services := ["svc1", "kopia"], svcLoadOk := fun _ => true, svcShouldStart := fun _ => true
    connectRes := none, createRepoRes := none
    datasetExists := true, createDatasetRes := none
    currentWindowID := "win-1"
    parseFrequency := fun _ => none
    tickNow := 1700000000 }

/-- A fixture service record with a connected repository and all other
fields at their zero values. -/
def kConnected : ServiceKopia :=
  { initialServiceKopia with
    state := { initialServiceKopia.state with repositoryConnected := true } }

/-- Kopia.Stop contains no failing path: both of its returns are nil. -/
theorem Stop_returns_nil (k : ServiceKopia) : (Stop k).1 = none := by
  unfold Stop
  split <;> rfl

theorem Stop_config (k : ServiceKopia) : (Stop k).2.config = k.config := by
  unfold Stop
  split <;> rfl

theorem updateStop_config (k : ServiceKopia) (cfg : ServiceKopiaConfig) :
    (updateStop k cfg).config = k.config := by
  unfold updateStop
  split
  · exact Stop_config k
  · rfl

theorem updateStop_connected (k : ServiceKopia) (cfg : ServiceKopiaConfig) :
    (updateStop k cfg).state.repositoryConnected = k.state.repositoryConnected := by
  unfold updateStop Stop
  split
  · split <;> rfl
  · rfl

theorem configure_config (env : Env) (k : ServiceKopia) :
    (configure env k).2.1.config = k.config := by
  unfold configure
  repeat' split <;> try rfl

theorem Start_config (env : Env) (k : ServiceKopia) :
    (Start env k).2.1.config = k.config := by
  unfold Start
  split
  · rfl
  · exact configure_config env k

theorem performBackup_config (env : Env) (clock : Nat) (k : ServiceKopia) :
    (performBackup env clock k).kopia.config = k.config := by
  unfold performBackup
  dsimp only
  repeat' split <;> try rfl

theorem PerformRestore_config (env : Env) (clock : Nat) (k : ServiceKopia) (id : String) :
    (PerformRestore env clock k id).kopia.config = k.config := by
  unfold PerformRestore
  dsimp only
  repeat' split <;> try rfl

theorem schedulerTick_config (env : Env) (clock : Nat) (k : ServiceKopia) :
    (schedulerTick env clock k).kopia.config = k.config := by
  unfold schedulerTick
  dsimp only
  repeat' split <;> try rfl
  all_goals simp [performBackup_config]

theorem updateApplyConfig_config (env : Env) (clock : Nat) (k : ServiceKopia)
    (oldC newC : ServiceKopiaConfig) (calls : List ExtCall) (plog : List Nat) :
    (updateApplyConfig env clock k oldC newC calls plog).kopia.config = newC := by
  unfold updateApplyConfig
  dsimp only
  split
  · split
    case _ e k3 c heq =>
      have h := Start_config env { k with config := newC }
      rw [heq] at h
      simpa using h
    case _ k3 c heq =>
      have h := Start_config env { k with config := newC }
      rw [heq] at h
      simp only at h
      split
      · split
        case _ e k4 c2 heq2 =>
          have h2 := configure_config env k3
          rw [heq2] at h2
          simpa [h] using h2
        case _ k4 c2 heq2 =>
          have h2 := configure_config env k3
          rw [heq2] at h2
          simpa [h] using h2
      · simpa using h
  · split
    · split
      case _ e k3 c2 heq =>
        have h := configure_config env { k with config := newC }
        rw [heq] at h
        simpa using h
      case _ k3 c2 heq =>
        have h := configure_config env { k with config := newC }
        rw [heq] at h
        simpa using h
    · rfl

theorem createZFSSnapshot_calls (env : Env) (clock : Nat) (p : String) :
    (createZFSSnapshot env clock p).2.1 = [.zfsSnapshot (p ++ "@kopia-" ++ env.nowFmt clock)] := by
  unfold createZFSSnapshot
  dsimp only
  split <;> rfl

theorem createZFSSnapshot_clock (env : Env) (clock : Nat) (p : String) :
    (createZFSSnapshot env clock p).2.2 = clock + 1 := by
  unfold createZFSSnapshot
  dsimp only
  split <;> rfl

theorem createZFSSnapshot_ok (env : Env) (clock : Nat) (p : String)
    {nm : String} {c : List ExtCall} {cl : Nat}
    (h : createZFSSnapshot env clock p = (.ok nm, c, cl)) :
    nm = p ++ "@kopia-" ++ env.nowFmt clock ∧
    env.zfsSnapshotRes (p ++ "@kopia-" ++ env.nowFmt clock) = none := by
  unfold createZFSSnapshot at h
  dsimp only at h
  split at h
  · simp at h
  case _ heq =>
    refine ⟨?_, heq⟩
    have h1 := congrArg (fun x => x.1) h
    simpa using h1.symm

theorem findLocalPool_ok (env : Env) {p : String}
    (h : findLocalPool env = .ok p) : p = "local" := by
  unfold findLocalPool at h
  split at h
  · simpa using h.symm
  · simp at h

theorem getPoolMountpoint_calls (env : Env) (p : String) :
    (getPoolMountpoint env p).2 = [.zfsGetMountpoint p] := by
  unfold getPoolMountpoint
  dsimp only
  repeat' split
  all_goals rfl

theorem getSnapshotPath_no_snap (env : Env) (s nm : String) :
    ExtCall.zfsSnapshot nm ∉ (getSnapshotPath env s).2 := by
  unfold getSnapshotPath
  dsimp only
  split
  case _ e mcalls heq =>
    have h2 : mcalls = [ExtCall.zfsGetMountpoint ((splitAmp s).headD "")] := by
      have h3 := congrArg Prod.snd heq
      rw [getPoolMountpoint_calls] at h3
      simpa using h3.symm
    rw [h2]
    simp
  case _ mountpoint mcalls heq =>
    have h2 : mcalls = [ExtCall.zfsGetMountpoint ((splitAmp s).headD "")] := by
      have h3 := congrArg Prod.snd heq
      rw [getPoolMountpoint_calls] at h3
      simpa using h3.symm
    split <;> rw [h2] <;> simp

theorem applyRetention_no_snap (env : Env) (cfg : ServiceKopiaConfig) (nm : String) :
    ExtCall.zfsSnapshot nm ∉ (applyRetention env cfg).2 := by
  unfold applyRetention
  dsimp only
  repeat' split
  all_goals simp

theorem destroyZFSSnapshot_calls (env : Env) (nm : String) :
    (destroyZFSSnapshot env nm).2 = [.zfsDestroy nm] := by
  unfold destroyZFSSnapshot
  split <;> rfl

/-- C6: a restore requested while the repository is not connected fails
with an error, mutates no state (so in_progress stays false and progress
and last_status keep their values), issues no external call (in
particular stops no managed service or application) and logs no progress
update. -/
theorem c6_restore_requires_connection (env : Env) (clock : Nat) (k : ServiceKopia)
    (id : String) (h : k.state.repositoryConnected = false) :
    (PerformRestore env clock k id).res = some "repository not connected" ∧
    (PerformRestore env clock k id).kopia = k ∧
    (PerformRestore env clock k id).calls = [] ∧
    (PerformRestore env clock k id).plog = [] := by
  unfold PerformRestore
  rw [if_pos h]
  exact ⟨rfl, rfl, rfl, rfl⟩

/-- Witness for C6 at a concrete disconnected state. -/
theorem c6_witness :
    initialServiceKopia.state.repositoryConnected = false ∧
    (PerformRestore envAllOk 0 initialServiceKopia "k123").res = some "repository not connected" ∧
    (PerformRestore envAllOk 0 initialServiceKopia "k123").kopia = initialServiceKopia ∧
    (PerformRestore envAllOk 0 initialServiceKopia "k123").calls = [] ∧
    (PerformRestore envAllOk 0 initialServiceKopia "k123").plog = [] :=
  ⟨rfl, c6_restore_requires_connection envAllOk 0 initialServiceKopia "k123" rfl⟩

/-- C9: with all six retention keep counts absent or zero, applyRetention
issues no external pruning invocation and succeeds. -/
theorem c9_empty_retention_noop (env : Env) (cfg : ServiceKopiaConfig)
    (h : cfg.retention.keepLatest = 0 ∧ cfg.retention.keepHourly = 0 ∧
         cfg.retention.keepDaily = 0 ∧ cfg.retention.keepWeekly = 0 ∧
         cfg.retention.keepMonthly = 0 ∧ cfg.retention.keepAnnual = 0) :
    applyRetention env cfg = (none, []) := by
  obtain ⟨h1, h2, h3, h4, h5, h6⟩ := h
  unfold applyRetention retentionArgs
  simp [h1, h2, h3, h4, h5, h6]

/-- Witness for C9 at the all-zero retention policy. -/
theorem c9_witness :
    (initialServiceKopia.config.retention.keepLatest = 0 ∧
     initialServiceKopia.config.retention.keepHourly = 0 ∧
     initialServiceKopia.config.retention.keepDaily = 0 ∧
     initialServiceKopia.config.retention.keepWeekly = 0 ∧
     initialServiceKopia.config.retention.keepMonthly = 0 ∧
     initialServiceKopia.config.retention.keepAnnual = 0) ∧
    applyRetention envAllOk initialServiceKopia.config = (none, []) :=
  ⟨⟨rfl, rfl, rfl, rfl, rfl, rfl⟩,
   c9_empty_retention_noop envAllOk initialServiceKopia.config ⟨rfl, rfl, rfl, rfl, rfl, rfl⟩⟩

/-- Classifies external calls issued only by the backup or restore
executors, as opposed to repository configuration calls. -/
def cycleCall : ExtCall → Bool
  | .kopiaRepoConnect => false
  | .kopiaRepoCreate => false
  | .zfsCreateDataset _ _ => false
  | _ => true

theorem ensureKopiaCacheDataset_calls (env : Env) :
    ∀ c ∈ (ensureKopiaCacheDataset env).2, cycleCall c = false := by
  unfold ensureKopiaCacheDataset
  repeat' split
  all_goals simp [cycleCall]

theorem connectRepository_calls (env : Env) (cfg : ServiceKopiaConfig) :
    ∀ c ∈ (connectRepository env cfg).2, cycleCall c = false := by
  unfold connectRepository connectS3Repository
  repeat' split
  all_goals simp [cycleCall]

theorem initRepository_calls (env : Env) (cfg : ServiceKopiaConfig) :
    ∀ c ∈ (initRepository env cfg).2, cycleCall c = false := by
  unfold initRepository initS3Repository
  repeat' split
  all_goals simp [cycleCall]

theorem connectOrInitRepository_calls (env : Env) (cfg : ServiceKopiaConfig) :
    ∀ c ∈ (connectOrInitRepository env cfg).2, cycleCall c = false := by
  unfold connectOrInitRepository
  dsimp only
  split
  case _ calls heq =>
    intro c hc
    have h1 := connectRepository_calls env cfg c
    rw [heq] at h1
    exact h1 hc
  case _ e calls heq =>
    intro c hc
    rcases List.mem_append.mp hc with h | h
    · have h1 := connectRepository_calls env cfg c
      rw [heq] at h1
      exact h1 h
    · exact initRepository_calls env cfg c h

theorem configure_calls (env : Env) (k : ServiceKopia) :
    ∀ c ∈ (configure env k).2.2, cycleCall c = false := by
  unfold configure
  dsimp only
  split
  · simp
  · split
    case _ e calls heq =>
      intro c hc
      have h1 := ensureKopiaCacheDataset_calls env c
      rw [heq] at h1
      exact h1 hc
    case _ calls heq =>
      split
      case _ e calls2 heq2 =>
        intro c hc
        rcases List.mem_append.mp hc with h | h
        · have h1 := ensureKopiaCacheDataset_calls env c
          rw [heq] at h1
          exact h1 h
        · have h1 := connectOrInitRepository_calls env k.config c
          rw [heq2] at h1
          exact h1 h
      case _ calls2 heq2 =>
        intro c hc
        rcases List.mem_append.mp hc with h | h
        · have h1 := ensureKopiaCacheDataset_calls env c
          rw [heq] at h1
          exact h1 h
        · have h1 := connectOrInitRepository_calls env k.config c
          rw [heq2] at h1
          exact h1 h

theorem Start_calls (env : Env) (k : ServiceKopia) :
    ∀ c ∈ (Start env k).2.2, cycleCall c = false := by
  unfold Start
  split
  · simp
  · exact configure_calls env k

theorem updateApplyConfig_plog (env : Env) (clock : Nat) (k : ServiceKopia)
    (oldC newC : ServiceKopiaConfig) (calls : List ExtCall) (plog : List Nat) :
    (updateApplyConfig env clock k oldC newC calls plog).plog = plog := by
  unfold updateApplyConfig
  dsimp only
  repeat' split
  all_goals rfl

theorem updateApplyConfig_calls_nil (env : Env) (clock : Nat) (k : ServiceKopia)
    (oldC newC : ServiceKopiaConfig) (plog : List Nat) :
    ∀ c ∈ (updateApplyConfig env clock k oldC newC [] plog).calls, cycleCall c = false := by
  unfold updateApplyConfig
  dsimp only
  split
  · split
    case _ e k3 c2 heq =>
      intro c hc
      rw [List.nil_append] at hc
      have h1 := Start_calls env { k with config := newC } c
      rw [heq] at h1
      exact h1 hc
    case _ k3 c2 heq =>
      split
      · split
        case _ e k4 c3 heq2 =>
          intro c hc
          rw [List.nil_append] at hc
          rcases List.mem_append.mp hc with h | h
          · have h1 := Start_calls env { k with config := newC } c
            rw [heq] at h1
            exact h1 h
          · have h1 := configure_calls env k3 c
            rw [heq2] at h1
            exact h1 h
        case _ k4 c3 heq2 =>
          intro c hc
          rw [List.nil_append] at hc
          rcases List.mem_append.mp hc with h | h
          · have h1 := Start_calls env { k with config := newC } c
            rw [heq] at h1
            exact h1 h
          · have h1 := configure_calls env k3 c
            rw [heq2] at h1
            exact h1 h
      · intro c hc
        rw [List.nil_append] at hc
        have h1 := Start_calls env { k with config := newC } c
        rw [heq] at h1
        exact h1 hc
  · split
    · split
      case _ e k3 c2 heq =>
        intro c hc
        rw [List.nil_append] at hc
        have h1 := configure_calls env { k with config := newC } c
        rw [heq] at h1
        exact h1 hc
      case _ k3 c2 heq =>
        intro c hc
        rw [List.nil_append] at hc
        have h1 := configure_calls env { k with config := newC } c
        rw [heq] at h1
        exact h1 hc
    · simp

/-- C7: a configuration update whose incoming restore_snapshot_id equals
the persisted one (including both empty) does not start a restore cycle:
the update makes no progress writes and issues no backup- or
restore-executor call (only repository-configuration calls can occur). -/
theorem c7_same_id_update_no_restore (env : Env) (clock : Nat) (k : ServiceKopia)
    (cfg : ServiceKopiaConfig)
    (h : cfg.restoreSnapshotID = k.config.restoreSnapshotID) :
    (Update env clock k cfg).plog = [] ∧
    ∀ c ∈ (Update env clock k cfg).calls, cycleCall c = false := by
  unfold Update
  dsimp only
  rw [if_neg (fun hcon => hcon.2 h)]
  exact ⟨updateApplyConfig_plog env clock (updateStop k cfg) k.config cfg [] [],
         updateApplyConfig_calls_nil env clock (updateStop k cfg) k.config cfg []⟩

/-- Witness for C7: repeating the identical (empty) restore id. -/
theorem c7_witness :
    initialServiceKopia.config.restoreSnapshotID = initialServiceKopia.config.restoreSnapshotID ∧
    (Update envAllOk 0 initialServiceKopia initialServiceKopia.config).plog = [] ∧
    (∀ c ∈ (Update envAllOk 0 initialServiceKopia initialServiceKopia.config).calls, cycleCall c = false) :=
  ⟨rfl, c7_same_id_update_no_restore envAllOk 0 initialServiceKopia initialServiceKopia.config rfl⟩

theorem Update_restore_id (env : Env) (clock : Nat) (k : ServiceKopia)
    (cfg : ServiceKopiaConfig) (h : k.config.restoreSnapshotID = "") :
    (Update env clock k cfg).kopia.config.restoreSnapshotID = "" := by
  unfold Update
  dsimp only
  split
  case isTrue htrig =>
    split
    case _ e heq =>
      rw [PerformRestore_config, updateStop_config, h]
    case _ heq =>
      rw [updateApplyConfig_config]
  case isFalse hn =>
    rw [updateApplyConfig_config]
    by_cases hne : cfg.restoreSnapshotID = ""
    · exact hne
    · rcases not_and_or.mp hn with h1 | h1
      · exact absurd (not_not.mp h1) hne
      · rw [not_not.mp h1, h]

/-- Service records reachable by the daemon from the Go zero value through
the service's entry points (configuration updates, scheduler ticks, and
the exported stop/start/restore operations). -/
inductive Reachable : ServiceKopia → Prop where
  | init : Reachable initialServiceKopia
  | update (env : Env) (clock : Nat) (k : ServiceKopia) (cfg : ServiceKopiaConfig) :
      Reachable k → Reachable (Update env clock k cfg).kopia
  | tick (env : Env) (clock : Nat) (k : ServiceKopia) :
      Reachable k → Reachable (schedulerTick env clock k).kopia
  | stop (k : ServiceKopia) : Reachable k → Reachable (Stop k).2
  | start (env : Env) (k : ServiceKopia) : Reachable k → Reachable (Start env k).2.1
  | restore (env : Env) (clock : Nat) (k : ServiceKopia) (id : String) :
      Reachable k → Reachable (PerformRestore env clock k id).kopia

/-- At every reachable state the persisted restore_snapshot_id is empty:
it starts empty, a successful triggered restore writes back the cleared
field, a failed one leaves the previous (empty) value, and no other
operation touches the configuration. -/
theorem reachable_restore_id_empty (k : ServiceKopia) (h : Reachable k) :
    k.config.restoreSnapshotID = "" := by
  induction h with
  | init => rfl
  | update env clock k cfg _ ih => exact Update_restore_id env clock k cfg ih
  | tick env clock k _ ih => rw [schedulerTick_config]; exact ih
  | stop k _ ih => rw [Stop_config]; exact ih
  | start env k _ ih => rw [Start_config]; exact ih
  | restore env clock k id _ ih => rw [PerformRestore_config]; exact ih

/-- C1: for every configuration update of a reachable state that triggers
a restore (incoming restore_snapshot_id non-empty and differing from the
persisted value), the persisted configuration saved when Update returns
carries an empty restore_snapshot_id whether PerformRestore succeeded
(the field is explicitly cleared before the configuration is applied) or
failed (the incoming configuration is not applied and the previous
persisted value, which is empty at every reachable state, remains). -/
theorem c1_update_restore_id_empty (env : Env) (clock : Nat) (k : ServiceKopia)
    (cfg : ServiceKopiaConfig) (hreach : Reachable k)
    (_htrig : cfg.restoreSnapshotID ≠ "" ∧ cfg.restoreSnapshotID ≠ k.config.restoreSnapshotID) :
    (Update env clock k cfg).kopia.config.restoreSnapshotID = "" :=
  Update_restore_id env clock k cfg (reachable_restore_id_empty k hreach)

/-- A configuration update carrying a restore trigger. -/
def cfgTrigger : ServiceKopiaConfig :=
  { initialServiceKopia.config with restoreSnapshotID := "k123" }

/-- Witness for C1 at the initial state with a concrete trigger. -/
theorem c1_witness :
    (Update envAllOk 0 initialServiceKopia cfgTrigger).kopia.config.restoreSnapshotID = "" :=
  c1_update_restore_id_empty envAllOk 0 initialServiceKopia cfgTrigger
    Reachable.init (by decide)

/-- C10: when a triggered restore fails, Update returns PerformRestore's
error and the persisted configuration (every field, the previously stored
restore_snapshot_id included) is exactly what it was before the update. -/
theorem c10_failed_restore_preserves_config (env : Env) (clock : Nat)
    (k : ServiceKopia) (cfg : ServiceKopiaConfig) (e : String)
    (htrig : cfg.restoreSnapshotID ≠ "" ∧ cfg.restoreSnapshotID ≠ k.config.restoreSnapshotID)
    (hfail : (PerformRestore env clock (updateStop k cfg) cfg.restoreSnapshotID).res = some e) :
    (Update env clock k cfg).res = some e ∧
    (Update env clock k cfg).kopia.config = k.config := by
  unfold Update
  dsimp only
  rw [if_pos htrig]
  split
  case _ e2 heq =>
    rw [hfail] at heq
    have he : e = e2 := by simpa using heq
    subst he
    exact ⟨rfl, by rw [PerformRestore_config, updateStop_config]⟩
  case _ heq =>
    rw [hfail] at heq
    simp at heq

/-- Witness for C10: a triggered restore failing on the connection
precondition leaves the configuration untouched. -/
theorem c10_witness :
    (Update envAllOk 0 initialServiceKopia cfgTrigger).res = some "repository not connected" ∧
    (Update envAllOk 0 initialServiceKopia cfgTrigger).kopia.config = initialServiceKopia.config :=
  c10_failed_restore_preserves_config envAllOk 0 initialServiceKopia cfgTrigger
    "repository not connected" (by decide) (by decide)

/-- The all-ok environment with a failing backup-engine invocation. -/
def envEngineFail : Env :=
  { envAllOk with kopiaCreateRes := fun _ _ => some "engine exploded" }

/-- Counterexample to C5 as stated: a backup cycle whose engine invocation
fails ends with in_progress = false while progress is 25, which is
neither 0 nor 100 (the Progress field is set to 25 before the engine runs
and is not reset on the failure exit). -/
theorem c5_counterexample :
    (performBackup envEngineFail 0 kConnected).res = some "engine exploded" ∧
    (performBackup envEngineFail 0 kConnected).kopia.state.inProgress = false ∧
    (performBackup envEngineFail 0 kConnected).kopia.state.progress = 25 ∧
    ¬((performBackup envEngineFail 0 kConnected).kopia.state.progress = 0 ∨
      (performBackup envEngineFail 0 kConnected).kopia.state.progress = 100) := by
  decide

/-- C5 amended: within any single backup or restore cycle the successive
progress writes never decrease, and a cycle that completes successfully
ends with in_progress = false and progress = 100; after a failed cycle,
however, progress may retain the last checkpoint reached (see the
counterexample), so in_progress = false does not imply progress is 0 or
100 at every reachable point. -/
theorem c5_progress_amended (env : Env) (clock : Nat) (k : ServiceKopia) (id : String) :
    List.Chain' (· ≤ ·) (performBackup env clock k).plog ∧
    List.Chain' (· ≤ ·) (PerformRestore env clock k id).plog ∧
    ((performBackup env clock k).res ≠ none ∨
      ((performBackup env clock k).kopia.state.inProgress = false ∧
       (performBackup env clock k).kopia.state.progress = 100)) ∧
    ((PerformRestore env clock k id).res ≠ none ∨
      ((PerformRestore env clock k id).kopia.state.inProgress = false ∧
       (PerformRestore env clock k id).kopia.state.progress = 100)) := by
  refine ⟨?_, ?_, ?_, ?_⟩
  · unfold performBackup
    dsimp only
    repeat' split
    all_goals simp
  · unfold PerformRestore
    dsimp only
    repeat' split
    all_goals simp
  · unfold performBackup
    dsimp only
    repeat' split
    all_goals simp
  · unfold PerformRestore
    dsimp only
    repeat' split
    all_goals simp

/-- C3 evaluated on the code: during a restore the `zfs snapshot`
invocation meant to create the safety snapshot receives the name
"local@before-restore-<ts1>@kopia-<ts2>" — createZFSSnapshot appends
"@kopia-<timestamp>" to the full safety-snapshot name that PerformRestore
passes as its pool argument — so the attempted name contains two "@"
separators (a well-formed ZFS snapshot name has exactly one) and embeds
the backup-cycle "@kopia-" tag, while the documented name
"local@before-restore-<ts1>" is never requested. -/
theorem c3_safety_snapshot_name_malformed :
    ExtCall.zfsSnapshot "local@before-restore-20250101-000000@kopia-20250101-000001"
        ∈ (PerformRestore envAllOk 0 kConnected "k123").calls ∧
    ("local@before-restore-20250101-000000@kopia-20250101-000001".toList.count '@' = 2) ∧
    ExtCall.zfsSnapshot "local@before-restore-20250101-000000"
        ∉ (PerformRestore envAllOk 0 kConnected "k123").calls := by
  decide

/-- A connected service record with a cycle already in flight. -/
def kBusy : ServiceKopia :=
  { kConnected with state := { kConnected.state with inProgress := true } }

/-- Counterexample to C2 as stated: with in_progress = true, a
configuration update carrying a restore trigger still starts a full
restore cycle — it stops a managed service and drives the progress
field — because neither Update nor PerformRestore consults in_progress. -/
theorem c2_counterexample :
    kBusy.state.inProgress = true ∧
    ExtCall.stopService "svc1" ∈ (Update envAllOk 0 kBusy cfgTrigger).calls ∧
    (Update envAllOk 0 kBusy cfgTrigger).plog ≠ [] := by
  decide

theorem updateApplyConfig_calls_append (env : Env) (clock : Nat) (k : ServiceKopia)
    (oldC newC : ServiceKopiaConfig) (calls : List ExtCall) (plog : List Nat) :
    ∃ t, (updateApplyConfig env clock k oldC newC calls plog).calls = calls ++ t := by
  unfold updateApplyConfig
  dsimp only
  repeat' split
  all_goals first
    | exact ⟨_, rfl⟩
    | exact ⟨_, (List.append_assoc _ _ _)⟩
    | exact ⟨[], (List.append_nil _).symm⟩

theorem PerformRestore_safety_call (env : Env) (clock : Nat) (k : ServiceKopia)
    (id : String)
    (hconn : k.state.repositoryConnected = true) (hpool : env.poolExists = true) :
    ExtCall.zfsSnapshot (("local" ++ "@before-restore-" ++ env.nowFmt clock) ++
        "@kopia-" ++ env.nowFmt (clock + 1)) ∈ (PerformRestore env clock k id).calls := by
  unfold PerformRestore
  dsimp only
  rw [if_neg (by simp [hconn])]
  have hp : findLocalPool env = .ok "local" := by
    unfold findLocalPool
    rw [if_pos hpool]
  rw [hp]
  dsimp only
  have hc := createZFSSnapshot_calls env (clock + 1) ("local" ++ "@before-restore-" ++ env.nowFmt clock)
  rcases hcs : createZFSSnapshot env (clock + 1) ("local" ++ "@before-restore-" ++ env.nowFmt clock)
    with ⟨r1, c1, cl1⟩
  rw [hcs] at hc
  simp only at hc
  subst hc
  cases r1 <;> dsimp only <;> repeat' split
  all_goals simp

/-- C2 amended: the scheduler tick (spec-modelled, the tick loop is not in
src/) is guarded by in_progress and is a no-op while a cycle is in
flight, but the configuration-update path is not: Update does not consult
in_progress before invoking PerformRestore, and PerformRestore does not
consult it either, so an update carrying a restore trigger that arrives
with in_progress = true (repository connected, pool present) still issues
the restore cycle's external actions, beginning with the safety-snapshot
creation. -/
theorem c2_guard_amended (env : Env) (clock : Nat) (k : ServiceKopia)
    (cfg : ServiceKopiaConfig)
    (hbusy : k.state.inProgress = true)
    (htrig : cfg.restoreSnapshotID ≠ "" ∧ cfg.restoreSnapshotID ≠ k.config.restoreSnapshotID)
    (hconn : k.state.repositoryConnected = true)
    (hpool : env.poolExists = true) :
    ((schedulerTick env clock k).kopia = k ∧ (schedulerTick env clock k).calls = []) ∧
    ExtCall.zfsSnapshot (("local" ++ "@before-restore-" ++ env.nowFmt clock) ++
        "@kopia-" ++ env.nowFmt (clock + 1)) ∈ (Update env clock k cfg).calls := by
  constructor
  · unfold schedulerTick
    rw [if_pos hbusy]
    exact ⟨rfl, rfl⟩
  · unfold Update
    dsimp only
    rw [if_pos htrig]
    have hconn2 : (updateStop k cfg).state.repositoryConnected = true := by
      rw [updateStop_connected]
      exact hconn
    have hmem := PerformRestore_safety_call env clock (updateStop k cfg)
      cfg.restoreSnapshotID hconn2 hpool
    split
    case _ e heq => exact hmem
    case _ heq =>
      obtain ⟨t, ht⟩ := updateApplyConfig_calls_append env
        (PerformRestore env clock (updateStop k cfg) cfg.restoreSnapshotID).clock
        (PerformRestore env clock (updateStop k cfg) cfg.restoreSnapshotID).kopia
        k.config { cfg with restoreSnapshotID := "" }
        (PerformRestore env clock (updateStop k cfg) cfg.restoreSnapshotID).calls
        (PerformRestore env clock (updateStop k cfg) cfg.restoreSnapshotID).plog
      rw [ht]
      exact List.mem_append_left _ hmem

/-- Witness for the amended C2 at a concrete busy state. -/
theorem c2_amended_witness :
    ((schedulerTick envAllOk 0 kBusy).kopia = kBusy ∧ (schedulerTick envAllOk 0 kBusy).calls = []) ∧
    ExtCall.zfsSnapshot (("local" ++ "@before-restore-" ++ envAllOk.nowFmt 0) ++
        "@kopia-" ++ envAllOk.nowFmt (0 + 1)) ∈ (Update envAllOk 0 kBusy cfgTrigger).calls :=
  c2_guard_amended envAllOk 0 kBusy cfgTrigger rfl (by decide) rfl rfl

theorem createZFSSnapshot_err (env : Env) (clock : Nat) (p : String)
    {e : String} {c : List ExtCall} {cl : Nat}
    (h : createZFSSnapshot env clock p = (.error e, c, cl)) :
    ∃ e0, env.zfsSnapshotRes (p ++ "@kopia-" ++ env.nowFmt clock) = some e0 := by
  unfold createZFSSnapshot at h
  dsimp only at h
  split at h
  case _ e0 heq => exact ⟨e0, heq⟩
  case _ heq => simp at h

/-- A successfully completing backup cycle ends with in_progress = false,
progress = 100, last_backup set to the completion time (the third
`time.Now()` of the run) and the success status message. -/
theorem performBackup_success (env : Env) (clock : Nat) (k : ServiceKopia)
    (h : (performBackup env clock k).res = none) :
    (performBackup env clock k).kopia.state.inProgress = false ∧
    (performBackup env clock k).kopia.state.progress = 100 ∧
    (performBackup env clock k).kopia.state.lastBackup = env.nowTime (clock + 2) ∧
    (performBackup env clock k).kopia.state.lastStatus = "Backup completed successfully" := by
  unfold performBackup at h ⊢
  dsimp only at h ⊢
  by_cases h1 : k.state.repositoryConnected = false
  · rw [if_pos h1] at h
    simp at h
  · rw [if_neg h1] at h ⊢
    by_cases h2 : isInMaintenanceWindow env = false
    · rw [if_pos h2] at h
      simp at h
    · rw [if_neg h2] at h ⊢
      rcases h3 : findLocalPool env with e3 | pool
      · rw [h3] at h
        simp at h
      · rw [h3] at h
        dsimp only at h ⊢
        have hclk := createZFSSnapshot_clock env clock pool
        rcases h4 : createZFSSnapshot env clock pool with ⟨r4, c4, cl4⟩
        rw [h4] at h hclk
        simp only at hclk
        subst hclk
        cases r4 with
        | error e4 => simp at h
        | ok nm4 =>
          dsimp only at h ⊢
          rcases h5 : getSnapshotPath env nm4 with ⟨r5, c5⟩
          rw [h5] at h
          cases r5 with
          | error e5 => simp at h
          | ok path5 =>
            dsimp only at h ⊢
            cases h6 : env.kopiaCreateRes path5 ("Backup of " ++ pool ++ " pool at " ++ env.nowRFC (clock + 1)) with
            | some e6 =>
              rw [h6] at h
              simp at h
            | none =>
              exact ⟨rfl, rfl, rfl, rfl⟩

/-- C8 (the scheduler tick itself is modelled from the spec, src/ holds
only the executor): every tick under the default empty backup_frequency
policy whose scheduling decision is positive and whose backup cycle
succeeds ends with in_progress = false, progress = 100, last_backup set
to the completion time and last_backup_window set to the identifier of
the currently active maintenance window. -/
theorem c8_tick_default_backup (env : Env) (clock : Nat) (k : ServiceKopia)
    (hfreq : k.config.backupFrequency = "")
    (hprog : k.state.inProgress = false)
    (hrun : shouldRunBackup env k = true)
    (hsucc : (performBackup env clock k).res = none) :
    (schedulerTick env clock k).res = none ∧
    (schedulerTick env clock k).kopia.state.inProgress = false ∧
    (schedulerTick env clock k).kopia.state.progress = 100 ∧
    (schedulerTick env clock k).kopia.state.lastBackup = env.nowTime (clock + 2) ∧
    (schedulerTick env clock k).kopia.state.lastBackupWindow = env.currentWindowID := by
  have hsf := performBackup_success env clock k hsucc
  unfold schedulerTick
  rw [if_neg (by simp [hprog]), if_pos hrun]
  dsimp only
  rw [hsucc]
  dsimp only
  rw [if_pos hfreq]
  exact ⟨rfl, hsf.1, hsf.2.1, hsf.2.2.1, rfl⟩

/-- Witness for C8 at a concrete tick with an all-ok backup. -/
theorem c8_witness :
    (schedulerTick envAllOk 0 kConnected).res = none ∧
    (schedulerTick envAllOk 0 kConnected).kopia.state.inProgress = false ∧
    (schedulerTick envAllOk 0 kConnected).kopia.state.progress = 100 ∧
    (schedulerTick envAllOk 0 kConnected).kopia.state.lastBackup = envAllOk.nowTime (0 + 2) ∧
    (schedulerTick envAllOk 0 kConnected).kopia.state.lastBackupWindow = envAllOk.currentWindowID :=
  c8_tick_default_backup envAllOk 0 kConnected rfl rfl (by decide) (by decide)

/-- A disconnected service record carrying a stale status message. -/
def kStalePrev : ServiceKopia :=
  { initialServiceKopia with
    state := { initialServiceKopia.state with lastStatus := "previous status" } }

/-- Counterexample to C4 as stated: when the repository-connected
precondition fails (a step-1 failure), performBackup aborts with an error
but does not record that error in last_status — the stale previous text
remains. -/
theorem c4_counterexample :
    (performBackup envAllOk 0 kStalePrev).res = some "repository not connected" ∧
    (performBackup envAllOk 0 kStalePrev).kopia.state.lastStatus = "previous status" ∧
    "previous status" ≠ "repository not connected" := by
  decide

/-- C4 amended: an aborting backup cycle entered with in_progress = false
ends with in_progress = false; every transient snapshot whose creation
command succeeded has a destroy command in the same run's call list; and
the error is recorded in last_status for every failure after the
connectivity precondition (maintenance window, pool lookup, snapshot
creation, path resolution, engine invocation) — the repository-not-
connected abort alone leaves last_status untouched (see the
counterexample). -/
theorem c4_backup_failure_cleanup (env : Env) (clock : Nat) (k : ServiceKopia)
    (e : String)
    (h0 : k.state.inProgress = false)
    (hres : (performBackup env clock k).res = some e) :
    (performBackup env clock k).kopia.state.inProgress = false ∧
    (∀ nm, ExtCall.zfsSnapshot nm ∈ (performBackup env clock k).calls →
       env.zfsSnapshotRes nm = none →
       ExtCall.zfsDestroy nm ∈ (performBackup env clock k).calls) ∧
    (k.state.repositoryConnected = true →
       ((performBackup env clock k).kopia.state.lastStatus = "Outside maintenance window" ∨
        (performBackup env clock k).kopia.state.lastStatus = "Failed to find local pool: " ++ e ∨
        (performBackup env clock k).kopia.state.lastStatus = "Failed to create snapshot: " ++ e ∨
        (performBackup env clock k).kopia.state.lastStatus = "Failed to get snapshot path: " ++ e ∨
        (performBackup env clock k).kopia.state.lastStatus = "Failed to create Kopia snapshot: " ++ e)) := by
  unfold performBackup at hres ⊢
  dsimp only at hres ⊢
  by_cases h1 : k.state.repositoryConnected = false
  · rw [if_pos h1] at hres ⊢
    refine ⟨h0, ?_, ?_⟩
    · intro nm hmem
      simp at hmem
    · intro hconn
      rw [h1] at hconn
      simp at hconn
  · rw [if_neg h1] at hres ⊢
    by_cases h2 : isInMaintenanceWindow env = false
    · rw [if_pos h2] at hres ⊢
      refine ⟨h0, ?_, fun _ => Or.inl rfl⟩
      intro nm hmem
      simp at hmem
    · rw [if_neg h2] at hres ⊢
      rcases h3 : findLocalPool env with e3 | pool
      · rw [h3] at hres
        dsimp only at hres ⊢
        have he : e3 = e := by simpa using hres
        subst he
        refine ⟨h0, ?_, fun _ => Or.inr (Or.inl rfl)⟩
        intro nm hmem
        simp at hmem
      · rw [h3] at hres
        dsimp only at hres ⊢
        have hclk := createZFSSnapshot_clock env clock pool
        have hcll := createZFSSnapshot_calls env clock pool
        rcases h4 : createZFSSnapshot env clock pool with ⟨r4, c4, cl4⟩
        rw [h4] at hres hclk hcll
        simp only at hclk hcll
        subst hclk
        subst hcll
        cases r4 with
        | error e4 =>
          dsimp only at hres ⊢
          have he : e4 = e := by simpa using hres
          subst he
          refine ⟨rfl, ?_, fun _ => Or.inr (Or.inr (Or.inl rfl))⟩
          intro nm hmem hok
          simp only [List.mem_singleton, ExtCall.zfsSnapshot.injEq] at hmem
          rw [hmem] at hok
          obtain ⟨e0, hsome⟩ := createZFSSnapshot_err env clock pool h4
          rw [hsome] at hok
          simp at hok
        | ok nm4 =>
          obtain ⟨hnmEq, hsnapok⟩ := createZFSSnapshot_ok env clock pool h4
          subst hnmEq
          dsimp only at hres ⊢
          rcases h5 : getSnapshotPath env (pool ++ "@kopia-" ++ env.nowFmt clock) with ⟨r5, c5⟩
          rw [h5] at hres
          cases r5 with
          | error e5 =>
            dsimp only at hres ⊢
            have he : e5 = e := by simpa using hres
            subst he
            refine ⟨rfl, ?_, fun _ => Or.inr (Or.inr (Or.inr (Or.inl rfl)))⟩
            intro nm hmem hok
            rcases List.mem_append.mp hmem with hmem1 | hmem2
            · rcases List.mem_append.mp hmem1 with ha | hb
              · simp only [List.mem_singleton, ExtCall.zfsSnapshot.injEq] at ha
                rw [ha]
                simp
              · exfalso
                have hno := getSnapshotPath_no_snap env (pool ++ "@kopia-" ++ env.nowFmt clock) nm
                rw [h5] at hno
                exact hno hb
            · simp at hmem2
          | ok path5 =>
            dsimp only at hres ⊢
            cases h6 : env.kopiaCreateRes path5
                ("Backup of " ++ pool ++ " pool at " ++ env.nowRFC (clock + 1)) with
            | some e6 =>
              rw [h6] at hres
              dsimp only at hres ⊢
              have he : e6 = e := by simpa using hres
              subst he
              refine ⟨rfl, ?_, fun _ => Or.inr (Or.inr (Or.inr (Or.inr rfl)))⟩
              intro nm hmem hok
              rcases List.mem_append.mp hmem with hmem1 | hmem2
              · rcases List.mem_append.mp hmem1 with ha | hb
                · simp only [List.mem_singleton, ExtCall.zfsSnapshot.injEq] at ha
                  rw [ha]
                  simp
                · exfalso
                  have hno := getSnapshotPath_no_snap env (pool ++ "@kopia-" ++ env.nowFmt clock) nm
                  rw [h5] at hno
                  exact hno hb
              · simp at hmem2
            | none =>
              rw [h6] at hres
              simp at hres

/-- Witness for the amended C4: a backup whose engine invocation fails. -/
theorem c4_witness :
    (performBackup envEngineFail 0 kConnected).kopia.state.inProgress = false ∧
    (∀ nm, ExtCall.zfsSnapshot nm ∈ (performBackup envEngineFail 0 kConnected).calls →
       envEngineFail.zfsSnapshotRes nm = none →
       ExtCall.zfsDestroy nm ∈ (performBackup envEngineFail 0 kConnected).calls) ∧
    (kConnected.state.repositoryConnected = true →
       ((performBackup envEngineFail 0 kConnected).kopia.state.lastStatus = "Outside maintenance window" ∨
        (performBackup envEngineFail 0 kConnected).kopia.state.lastStatus = "Failed to find local pool: " ++ "engine exploded" ∨
        (performBackup envEngineFail 0 kConnected).kopia.state.lastStatus = "Failed to create snapshot: " ++ "engine exploded" ∨
        (performBackup envEngineFail 0 kConnected).kopia.state.lastStatus = "Failed to get snapshot path: " ++ "engine exploded" ∨
        (performBackup envEngineFail 0 kConnected).kopia.state.lastStatus = "Failed to create Kopia snapshot: " ++ "engine exploded")) :=
  c4_backup_failure_cleanup envEngineFail 0 kConnected "engine exploded" rfl (by decide)

end KopiaSvc
